import Mathlib

/-!
Verification of the exception-safe tab-attach shim declared in
`src/macos/Sources/Helpers/ObjCExceptionCatcher.h`:

  FOUNDATION_EXPORT BOOL GhosttyAddTabbedWindowSafely(
      id parent, id child, NSInteger ordered,
      NSError * _Nullable * _Nullable error);

The header only declares the function; its body is modelled from the
specification (see the doc comments marked `Modelled from the spec`).
The model makes the native-exception control flow explicit: a wrapped
toolkit call either completes or raises, and the shim runs it under a
scoped exception guard that translates any raised exception into the
error-return convention. An event trace records guard entry, the
toolkit invocation (with its forwarded arguments), interception and
guard release, so that scoping and pass-through properties are statable.
-/

namespace Ghostty

/-- A reference to a live window object owned by the host toolkit.
The shim never inspects it; it is passed through unchanged. -/
structure WindowHandle where
  id : Nat
deriving DecidableEq, Repr

/-- Modelled from the spec: a native exception of the host toolkit
(the body of `GhosttyAddTabbedWindowSafely` is not under `src/`; the
header only declares the function). An exception has a name, which
plays the role of its type (the fault-injection property quantifies
over arbitrary exception types), and a human-readable description.
In the host toolkit (Foundation) the description of an exception is a
non-empty string, since the exception name is mandatory and the
description falls back to it; the model carries that invariant. -/
structure NativeException where
  name : String
  description : String
  description_ne : description ≠ ""

/-- The structured error produced on the failure path. The failure
taxonomy has exactly one kind, `NativeOperationFailed`, carrying the
description of the original exception as its message. -/
inductive OperationError where
  | NativeOperationFailed (message : String)
deriving DecidableEq, Repr

/-- The message carried by an error value. -/
def OperationError.message : OperationError → String
  | .NativeOperationFailed m => m

/-- Outcome of a native computation: normal completion with a value, or
a raised native exception. -/
inductive NativeComp (α : Type) where
  | ok (a : α)
  | raised (exc : NativeException)

/-- The host toolkit add-tabbed-window primitive, as seen by the shim:
for each (parent, child, position) triple it either completes normally
or raises a native exception. The shim treats it as an external
capability and imposes no restriction on which exceptions it raises. -/
def Toolkit : Type := WindowHandle → WindowHandle → Int → NativeComp Unit

/-- Observable events of one invocation of the shim. -/
inductive Event where
  | guardEnter
  | toolkitInvoke (parent child : WindowHandle) (position : Int)
  | exceptionIntercepted (exc : NativeException)
  | guardRelease

/-- Discriminator: guard entry. -/
def Event.isGuardEnter : Event → Bool
  | .guardEnter => true
  | _ => false

/-- Discriminator: guard release. -/
def Event.isGuardRelease : Event → Bool
  | .guardRelease => true
  | _ => false

/-- Discriminator: the wrapped toolkit invocation. -/
def Event.isToolkitInvoke : Event → Bool
  | .toolkitInvoke _ _ _ => true
  | _ => false

/-- Events of the shim itself (guard bookkeeping and exception
translation), as opposed to the wrapped toolkit invocation, whose
effects on the window hierarchy are owned by the host toolkit. -/
def Event.isShimInternal : Event → Bool
  | .toolkitInvoke _ _ _ => false
  | _ => true

/-- How one invocation of the shim ends, as seen by the caller: either
a plain return carrying the boolean outcome and the optional error, or
a native exception propagating out of the function. -/
inductive CallResult where
  | returns (ok : Bool) (err : Option OperationError)
  | propagates (exc : NativeException)

/-- Discriminator: the invocation ended in a plain return. -/
def CallResult.isReturns : CallResult → Bool
  | .returns _ _ => true
  | _ => false

/-- Modelled from the spec: the scoped exception guard (the body of
`GhosttyAddTabbedWindowSafely` is not under `src/`). The guard is
entered, the body runs; a normal completion yields success with no
error; a raised native exception is intercepted before it can unwind
across the language boundary and translated into a
`NativeOperationFailed` error carrying the exception description, with
failure returned; on either path the guard is released once and a
plain return reaches the caller. `bodyEvents` are the events of the
body itself. -/
def runWithGuard (bodyEvents : List Event) (body : NativeComp Unit) :
    List Event × CallResult :=
  match body with
  | .ok _ =>
      (Event.guardEnter :: bodyEvents ++ [Event.guardRelease],
       .returns true none)
  | .raised exc =>
      (Event.guardEnter :: bodyEvents ++
         [Event.exceptionIntercepted exc, Event.guardRelease],
       .returns false (some (.NativeOperationFailed exc.description)))

/-- Modelled from the spec: the pure translation performed at the
boundary, from the outcome of the wrapped call to the (success, error)
pair returned to the caller. -/
def guardTranslate (body : NativeComp Unit) : Bool × Option OperationError :=
  match body with
  | .ok _ => (true, none)
  | .raised exc => (false, some (.NativeOperationFailed exc.description))

/-- Modelled from the spec: `attemptTabAttach` (the body of
`GhosttyAddTabbedWindowSafely` is not under `src/`). It invokes the
host toolkit add-tabbed-window operation with the three inputs,
unmodified and unvalidated, under the scoped exception guard, and
returns the boolean outcome together with the optional error. -/
def attemptTabAttach (toolkit : Toolkit) (parent child : WindowHandle)
    (position : Int) : Bool × Option OperationError :=
  guardTranslate (toolkit parent child position)

/-- Modelled from the spec: the same invocation with its event trace
and its result as seen by the caller, so that guard scoping and
exception propagation are observable. -/
def attemptTabAttachExec (toolkit : Toolkit) (parent child : WindowHandle)
    (position : Int) : List Event × CallResult :=
  runWithGuard [Event.toolkitInvoke parent child position]
    (toolkit parent child position)

/-- Modelled from the spec and the header: the C entry point
`GhosttyAddTabbedWindowSafely(id parent, id child, NSInteger ordered,
NSError * _Nullable * _Nullable error)`. The error out-parameter is
doubly nullable; per the Cocoa out-parameter convention the annotation
documents, the error is written only when the caller supplied a
non-NULL slot. `errorSlot` models the pointer: `none` is a NULL
pointer, `some v` a slot currently holding `v`. The second component
of the result is the slot content after the call; it stays `none` when
the pointer was NULL, since nothing is dereferenced or written. -/
def GhosttyAddTabbedWindowSafely (toolkit : Toolkit)
    (parent child : WindowHandle) (ordered : Int)
    (errorSlot : Option (Option OperationError)) :
    Bool × Option (Option OperationError) :=
  let r := attemptTabAttach toolkit parent child ordered
  match errorSlot with
  | none => (r.1, none)
  | some prev =>
      match r.2 with
      | some e => (r.1, some (some e))
      | none => (r.1, some prev)

/-- A single call request: parent, child, position. -/
abbrev Call : Type := WindowHandle × WindowHandle × Int

/-- Modelled from the spec: a sequence of invocations. The shim keeps
no state of its own across calls, so a call sequence (against a fixed
toolkit behavior) is the pointwise application of the one-call
function. -/
def attemptTabAttachSeq (toolkit : Toolkit) (calls : List Call) :
    List (Bool × Option OperationError) :=
  calls.map fun c => attemptTabAttach toolkit c.1 c.2.1 c.2.2

/-- A sample exception used to instantiate hypotheses concretely. -/
def excSample : NativeException :=
  ⟨"NSInternalInconsistencyException", "window already tabbed", by decide⟩

/-- A toolkit behavior that always raises `excSample`. -/
def toolkitRaising : Toolkit := fun _ _ _ => .raised excSample

/-- A toolkit behavior that always completes normally. -/
def toolkitOK : Toolkit := fun _ _ _ => .ok ()

/-- C1: for every invocation of the attach operation and for every
outcome of the wrapped toolkit call — including the wrapped call
raising a native exception of any type — no native exception
propagates out of the function to the caller: the invocation always
ends in a plain return, and whenever the wrapped call raises, the
fault is converted into the error-return convention. -/
theorem attemptTabAttach_no_native_exception_escapes (toolkit : Toolkit)
    (p c : WindowHandle) (pos : Int) :
    (attemptTabAttachExec toolkit p c pos).2.isReturns = true ∧
    ∀ exc : NativeException, toolkit p c pos = .raised exc →
      (attemptTabAttachExec toolkit p c pos).2 =
        .returns false (some (.NativeOperationFailed exc.description)) := by
  unfold attemptTabAttachExec runWithGuard
  cases h : toolkit p c pos with
  | ok a =>
      refine ⟨rfl, fun exc hexc => ?_⟩
      exact absurd hexc (by simp)
  | raised exc =>
      refine ⟨rfl, fun exc2 hexc => ?_⟩
      cases hexc
      rfl

/-- Closed instance of C1 at a concrete raising toolkit. -/
theorem attemptTabAttach_no_native_exception_escapes_witness :
    (attemptTabAttachExec toolkitRaising ⟨0⟩ ⟨1⟩ 2).2.isReturns = true ∧
    (attemptTabAttachExec toolkitRaising ⟨0⟩ ⟨1⟩ 2).2 =
      .returns false
        (some (.NativeOperationFailed "window already tabbed")) :=
  ⟨(attemptTabAttach_no_native_exception_escapes toolkitRaising ⟨0⟩ ⟨1⟩ 2).1,
   (attemptTabAttach_no_native_exception_escapes toolkitRaising ⟨0⟩ ⟨1⟩ 2).2
     excSample rfl⟩

/-- C2: for every input on which the wrapped toolkit call raises a
native exception, `attemptTabAttach` returns failure, and the
populated error is of the single kind `NativeOperationFailed`, with a
message that is non-empty and equal to the description of the raised
exception. -/
theorem attemptTabAttach_failure_error (toolkit : Toolkit)
    (p c : WindowHandle) (pos : Int) (exc : NativeException)
    (hcall : toolkit p c pos = .raised exc) :
    ∃ err : OperationError,
      attemptTabAttach toolkit p c pos = (false, some err) ∧
      err = .NativeOperationFailed exc.description ∧
      err.message = exc.description ∧
      err.message ≠ "" := by
  refine ⟨.NativeOperationFailed exc.description, ?_, rfl, rfl,
    exc.description_ne⟩
  unfold attemptTabAttach guardTranslate
  rw [hcall]

/-- Closed instance of C2: an exception described
"window already tabbed" yields failure with exactly that message. -/
theorem attemptTabAttach_failure_error_witness :
    ∃ err : OperationError,
      attemptTabAttach toolkitRaising ⟨0⟩ ⟨1⟩ 2 = (false, some err) ∧
      err = .NativeOperationFailed "window already tabbed" ∧
      err.message = "window already tabbed" ∧
      err.message ≠ "" :=
  attemptTabAttach_failure_error toolkitRaising ⟨0⟩ ⟨1⟩ 2 excSample rfl

/-- C3: for every triple (parent, child, position) on which the
wrapped toolkit call completes normally, `attemptTabAttach` returns
success and does not populate the error output. -/
theorem attemptTabAttach_success (toolkit : Toolkit)
    (p c : WindowHandle) (pos : Int)
    (hcall : toolkit p c pos = .ok ()) :
    attemptTabAttach toolkit p c pos = (true, none) := by
  unfold attemptTabAttach guardTranslate
  rw [hcall]

/-- Closed instance of C3 at a toolkit that completes normally. -/
theorem attemptTabAttach_success_witness :
    attemptTabAttach toolkitOK ⟨0⟩ ⟨1⟩ 2 = (true, none) :=
  attemptTabAttach_success toolkitOK ⟨0⟩ ⟨1⟩ 2 rfl

/-- C4: on every exit path of the function — normal return of the
wrapped call or an intercepted exception — the scoped exception guard
is entered exactly once and released exactly once. -/
theorem guard_entered_released_exactly_once (toolkit : Toolkit)
    (p c : WindowHandle) (pos : Int) :
    ((attemptTabAttachExec toolkit p c pos).1.countP
        Event.isGuardEnter = 1) ∧
    ((attemptTabAttachExec toolkit p c pos).1.countP
        Event.isGuardRelease = 1) := by
  unfold attemptTabAttachExec runWithGuard
  cases toolkit p c pos <;>
    simp [List.countP, List.countP.go, Event.isGuardEnter,
      Event.isGuardRelease]

/-- C5: the function keeps no state across invocations. Against a
fixed toolkit behavior, the result of a call is independent of the
call history: a call appended after any prior sequence yields exactly
the one-call result, and in particular, after a prior failed call with
some arguments, a second call with the same arguments returns a
defined result equal to the first one (so it behaves exactly as a
first call and does not crash). -/
theorem attemptTabAttach_stateless (toolkit : Toolkit)
    (history : List Call) (p c : WindowHandle) (pos : Int)
    (hfail : (attemptTabAttach toolkit p c pos).1 = false) :
    attemptTabAttachSeq toolkit (history ++ [(p, c, pos)]) =
      attemptTabAttachSeq toolkit history ++
        [attemptTabAttach toolkit p c pos] ∧
    attemptTabAttachSeq toolkit [(p, c, pos), (p, c, pos)] =
      [attemptTabAttach toolkit p c pos,
       attemptTabAttach toolkit p c pos] ∧
    (attemptTabAttach toolkit p c pos).1 = false := by
  refine ⟨?_, rfl, hfail⟩
  unfold attemptTabAttachSeq
  simp

/-- Closed instance of C5: a second call after a failed first call, at
a raising toolkit. -/
theorem attemptTabAttach_stateless_witness :
    attemptTabAttachSeq toolkitRaising
        ([(⟨0⟩, ⟨1⟩, 2)] ++ [(⟨0⟩, ⟨1⟩, 2)]) =
      attemptTabAttachSeq toolkitRaising [(⟨0⟩, ⟨1⟩, 2)] ++
        [attemptTabAttach toolkitRaising ⟨0⟩ ⟨1⟩ 2] ∧
    attemptTabAttachSeq toolkitRaising [(⟨0⟩, ⟨1⟩, 2), (⟨0⟩, ⟨1⟩, 2)] =
      [attemptTabAttach toolkitRaising ⟨0⟩ ⟨1⟩ 2,
       attemptTabAttach toolkitRaising ⟨0⟩ ⟨1⟩ 2] ∧
    (attemptTabAttach toolkitRaising ⟨0⟩ ⟨1⟩ 2).1 = false :=
  attemptTabAttach_stateless toolkitRaising [(⟨0⟩, ⟨1⟩, 2)] ⟨0⟩ ⟨1⟩ 2 rfl

/-- C6: on the failure path the component itself leaves no partial
state: the invocation trace is exactly guard entry, the one toolkit
invocation, the interception and guard release — every event other
than the toolkit invocation itself is shim-internal bookkeeping — and
everything observable to the caller is the boolean result and the
populated error value. -/
theorem attemptTabAttach_failure_no_partial_state (toolkit : Toolkit)
    (p c : WindowHandle) (pos : Int) (exc : NativeException)
    (hcall : toolkit p c pos = .raised exc) :
    attemptTabAttachExec toolkit p c pos =
      ([Event.guardEnter, Event.toolkitInvoke p c pos,
        Event.exceptionIntercepted exc, Event.guardRelease],
       .returns false (some (.NativeOperationFailed exc.description))) ∧
    attemptTabAttach toolkit p c pos =
      (false, some (.NativeOperationFailed exc.description)) ∧
    ∀ e ∈ (attemptTabAttachExec toolkit p c pos).1,
      e.isShimInternal = true ∨ e = Event.toolkitInvoke p c pos := by
  have hexec : attemptTabAttachExec toolkit p c pos =
      ([Event.guardEnter, Event.toolkitInvoke p c pos,
        Event.exceptionIntercepted exc, Event.guardRelease],
       .returns false (some (.NativeOperationFailed exc.description))) := by
    unfold attemptTabAttachExec runWithGuard
    rw [hcall]
    rfl
  refine ⟨hexec, ?_, ?_⟩
  · unfold attemptTabAttach guardTranslate
    rw [hcall]
  · intro e he
    rw [hexec] at he
    simp only [List.mem_cons, List.not_mem_nil, or_false] at he
    rcases he with h | h | h | h <;> subst h <;>
      simp [Event.isShimInternal]

/-- Closed instance of C6 at a raising toolkit. -/
theorem attemptTabAttach_failure_no_partial_state_witness :
    attemptTabAttachExec toolkitRaising ⟨0⟩ ⟨1⟩ 2 =
      ([Event.guardEnter, Event.toolkitInvoke ⟨0⟩ ⟨1⟩ 2,
        Event.exceptionIntercepted excSample, Event.guardRelease],
       .returns false
         (some (.NativeOperationFailed "window already tabbed"))) ∧
    attemptTabAttach toolkitRaising ⟨0⟩ ⟨1⟩ 2 =
      (false, some (.NativeOperationFailed "window already tabbed")) ∧
    ∀ e ∈ (attemptTabAttachExec toolkitRaising ⟨0⟩ ⟨1⟩ 2).1,
      e.isShimInternal = true ∨ e = Event.toolkitInvoke ⟨0⟩ ⟨1⟩ 2 :=
  attemptTabAttach_failure_no_partial_state toolkitRaising ⟨0⟩ ⟨1⟩ 2
    excSample rfl

/-- C7: for every integer position value, negative and out-of-range
values included, the shim forwards the position to the underlying
toolkit call unchanged — the trace contains the toolkit invocation at
exactly the given arguments — and performs no validation, clamping or
rejection: the outcome is exactly the guard translation of the toolkit
behavior applied at the unmodified arguments. -/
theorem position_forwarded_unvalidated (toolkit : Toolkit)
    (p c : WindowHandle) (pos : Int) :
    Event.toolkitInvoke p c pos ∈
      (attemptTabAttachExec toolkit p c pos).1 ∧
    attemptTabAttach toolkit p c pos =
      guardTranslate (toolkit p c pos) := by
  refine ⟨?_, rfl⟩
  unfold attemptTabAttachExec runWithGuard
  cases toolkit p c pos <;> simp

/-- C8: the error out-parameter is doubly nullable in the declared
interface (`NSError * _Nullable * _Nullable error` in the header): for
every input the caller may pass a NULL error pointer, and the function
still returns the boolean outcome of the attach attempt on both the
success and the failure path, while writing nothing through the NULL
pointer (no dereference is modelled: the slot stays absent). -/
theorem null_error_pointer_safe (toolkit : Toolkit)
    (p c : WindowHandle) (ordered : Int) :
    (GhosttyAddTabbedWindowSafely toolkit p c ordered none).1 =
      (attemptTabAttach toolkit p c ordered).1 ∧
    (GhosttyAddTabbedWindowSafely toolkit p c ordered none).2 = none ∧
    (toolkit p c ordered = .ok () →
      (GhosttyAddTabbedWindowSafely toolkit p c ordered none).1 = true) ∧
    ∀ exc : NativeException, toolkit p c ordered = .raised exc →
      (GhosttyAddTabbedWindowSafely toolkit p c ordered none).1 =
        false := by
  refine ⟨rfl, rfl, ?_, ?_⟩
  · intro h
    unfold GhosttyAddTabbedWindowSafely attemptTabAttach guardTranslate
    rw [h]
  · intro exc h
    unfold GhosttyAddTabbedWindowSafely attemptTabAttach guardTranslate
    rw [h]

/-- Closed instance of C8 on the failure path with a NULL error
pointer. -/
theorem null_error_pointer_safe_witness :
    (GhosttyAddTabbedWindowSafely toolkitRaising ⟨0⟩ ⟨1⟩ 2 none).1 =
      (attemptTabAttach toolkitRaising ⟨0⟩ ⟨1⟩ 2).1 ∧
    (GhosttyAddTabbedWindowSafely toolkitRaising ⟨0⟩ ⟨1⟩ 2 none).2 =
      none ∧
    (GhosttyAddTabbedWindowSafely toolkitRaising ⟨0⟩ ⟨1⟩ 2 none).1 =
      false :=
  ⟨(null_error_pointer_safe toolkitRaising ⟨0⟩ ⟨1⟩ 2).1,
   (null_error_pointer_safe toolkitRaising ⟨0⟩ ⟨1⟩ 2).2.1,
   (null_error_pointer_safe toolkitRaising ⟨0⟩ ⟨1⟩ 2).2.2.2
     excSample rfl⟩

/-- C9: the function is deterministic. Two invocations with the same
parent, child and position, against toolkit behaviors that agree at
those arguments (same normal completion or same raised exception),
return the same boolean result, populate the same error value, and
produce the same trace. -/
theorem attemptTabAttach_deterministic (tk1 tk2 : Toolkit)
    (p c : WindowHandle) (pos : Int)
    (hagree : tk1 p c pos = tk2 p c pos) :
    attemptTabAttach tk1 p c pos = attemptTabAttach tk2 p c pos ∧
    attemptTabAttachExec tk1 p c pos =
      attemptTabAttachExec tk2 p c pos := by
  unfold attemptTabAttach attemptTabAttachExec
  rw [hagree]
  exact ⟨rfl, rfl⟩

/-- Closed instance of C9 at two extensionally equal toolkit
behaviors. -/
theorem attemptTabAttach_deterministic_witness :
    attemptTabAttach toolkitRaising ⟨0⟩ ⟨1⟩ 2 =
      attemptTabAttach (fun _ _ _ => .raised excSample) ⟨0⟩ ⟨1⟩ 2 ∧
    attemptTabAttachExec toolkitRaising ⟨0⟩ ⟨1⟩ 2 =
      attemptTabAttachExec (fun _ _ _ => .raised excSample) ⟨0⟩ ⟨1⟩ 2 :=
  attemptTabAttach_deterministic toolkitRaising
    (fun _ _ _ => .raised excSample) ⟨0⟩ ⟨1⟩ 2 rfl

end Ghostty
